import Mathlib

/-!
Shallow embedding of src/src/writer.cpp (datadog::opentracing::AgentWriter).

The writer keeps a mutex-protected deque of messages, two flags
(stop_writing_, flush_worker_) and a worker thread.  We embed the shared
state as a structure and every lock-protected critical section of the
source as one atomic transition of a step function; interleavings of
producer calls and the worker are lists of such transitions.  The curl
handle is embedded as a record of the result codes its calls return, and
C++ exceptions (std::bad_alloc) as an Except channel with an explicit
allocation oracle.
-/

namespace AgentWriter

/-- Result of a curl-handle call: CURLE_OK or an error whose
curl_easy_strerror text is carried along. -/
inductive CURLcode where
  | ok
  | err (msg : String)
deriving DecidableEq, Repr

/-- A msgpack value, generic over the message payload type, enough to
express the nesting structure produced at writer.cpp:109-110. -/
inductive MPValue (M : Type) where
  | obj (m : M)
  | arr (xs : List (MPValue M))

/-- Number of elements of the outermost array (0 for a bare object). -/
def MPValue.outerLength {M : Type} : MPValue M → Nat
  | .obj _ => 0
  | .arr xs => xs.length

/-- writer.cpp:109-110: the drained deque is placed inside a
one-element std::array before msgpack::pack, so the payload is an array
containing one array of messages. -/
def wrapMessages {M : Type} (msgs : List M) : MPValue M :=
  MPValue.arr [MPValue.arr (msgs.map MPValue.obj)]

/-- Position of the worker thread between critical sections:
idle = blocked in condition_.wait_for (writer.cpp:96);
sending = lock released, postMessages in progress (writer.cpp:114),
carrying the packed payload and num_messages;
stopped = the lambda returned (writer.cpp:99). -/
inductive WorkerPhase (M : Type) where
  | idle
  | sending (payload : MPValue M) (count : Nat)
  | stopped

/-- The shared state of an AgentWriter: the fields guarded by mutex_
(messages_, stop_writing_, flush_worker_), the configuration bound
max_queued_messages_, the worker position, and the history of batches
handed to the encoder/transport (each payload with its message count). -/
structure SysState (M : Type) where
  maxQueuedMessages : Nat
  messages : List M
  stopWriting : Bool
  flushWorker : Bool
  phase : WorkerPhase M
  sent : List (MPValue M × Nat)

/-- One atomic transition: each producer entry point and each
lock-protected section of the worker loop. -/
inductive Action (M : Type) where
  | write (m : M)
  | flushRequest
  | stopRequest
  | workerWake
  | workerFinishSend
deriving DecidableEq

/-- The transition function.  Each branch is the body of one critical
section of writer.cpp:

write (72-81): under the lock, return unchanged if stop_writing_ or the
deque already holds max_queued_messages_, else push_back.

flushRequest (128-130): the flush caller sets flush_worker_ and
notifies; its subsequent wait is the predicate flushReleased below.

stopRequest (60-67): stop sets stop_writing_ (idempotently) and
notifies.

workerWake (95-112): condition_.wait_for returned (timeout, flush or
stop); if stop_writing_, the lambda returns (stopped); else if the
deque is empty, continue (re-wait, nothing else changes); else pack the
wrapped deque, record num_messages, clear the deque and leave the lock
to send.

workerFinishSend (114-120): postMessages completed (its outcome never
touches shared state, see postMessages below), the batch having been
handed to the transport; then under the lock flush_worker_ is set to
false unconditionally and all waiters are notified. -/
def step {M : Type} (s : SysState M) : Action M → SysState M
  | .write m =>
      if s.stopWriting then s
      else if s.maxQueuedMessages ≤ s.messages.length then s
      else { s with messages := s.messages ++ [m] }
  | .flushRequest => { s with flushWorker := true }
  | .stopRequest => { s with stopWriting := true }
  | .workerWake =>
      match s.phase with
      | .idle =>
          if s.stopWriting then { s with phase := .stopped }
          else if s.messages.length = 0 then s
          else { s with
                   messages := [],
                   phase := .sending (wrapMessages s.messages) s.messages.length }
      | _ => s
  | .workerFinishSend =>
      match s.phase with
      | .sending p n =>
          { s with sent := s.sent ++ [(p, n)], flushWorker := false, phase := .idle }
      | _ => s

/-- Run a sequence of interleaved transitions. -/
def runActs {M : Type} (s : SysState M) (acts : List (Action M)) : SysState M :=
  acts.foldl step s

/-- State right after construction: empty deque, both flags false,
worker idle, nothing sent. -/
def initState (M : Type) (maxQueued : Nat) : SysState M :=
  { maxQueuedMessages := maxQueued, messages := [], stopWriting := false,
    flushWorker := false, phase := .idle, sent := [] }

/-- The wait predicate of flush (writer.cpp:132): the caller returns
exactly when not flush_worker_ or stop_writing_. -/
def flushReleased {M : Type} (s : SysState M) : Bool :=
  !s.flushWorker || s.stopWriting

/-- The only exception modelled: std::bad_alloc, thrown on allocation
failure and the single exception type the source catches. -/
inductive CxxException where
  | badAlloc
deriving DecidableEq, Repr

/-- Result codes the curl handle returns for the calls made inside one
postMessages cycle (writer.cpp:139-163), plus the text getError yields. -/
structure PostResponses where
  traceCountHeader : CURLcode
  postFieldSize : CURLcode
  postFields : CURLcode
  performCall : CURLcode
  lastError : String
deriving DecidableEq, Repr

/-- Observable outcome of one postMessages call: the std::cerr lines it
printed, whether handle->perform() was reached, and whether it
succeeded. -/
structure PostOutcome where
  logs : List String
  performAttempted : Bool
  delivered : Bool
deriving DecidableEq, Repr

/-- The try-block of postMessages (writer.cpp:138-165).  allocFails is
the allocation oracle for the std::string building inside the block
(the trace-count header string, buffer.str()); when it fires, the
C++ code throws std::bad_alloc out of the block.  Otherwise the four
handle calls run in order, each non-ok result logging one line to
std::cerr and returning early — the batch is simply dropped. -/
def postMessagesBody (allocFails : Bool) (h : PostResponses) :
    Except CxxException PostOutcome :=
  if allocFails then .error .badAlloc
  else
    match h.traceCountHeader with
    | .err e =>
        .ok { logs := ["Error setting agent communication headers: " ++ e],
              performAttempted := false, delivered := false }
    | .ok =>
        match h.postFieldSize with
        | .err e =>
            .ok { logs := ["Error setting agent request size: " ++ e],
                  performAttempted := false, delivered := false }
        | .ok =>
            match h.postFields with
            | .err e =>
                .ok { logs := ["Error setting agent request body: " ++ e],
                      performAttempted := false, delivered := false }
            | .ok =>
                match h.performCall with
                | .err e =>
                    .ok { logs := ["Error sending traces to agent: " ++ e
                                     ++ "\n" ++ h.lastError],
                          performAttempted := true, delivered := false }
                | .ok =>
                    .ok { logs := [], performAttempted := true,
                          delivered := true }

/-- postMessages with its catch (const std::bad_alloc) handler
(writer.cpp:166-168): a bad_alloc thrown inside is swallowed and the
messages are dropped; nothing propagates to the worker loop. -/
def postMessages (allocFails : Bool) (h : PostResponses) : PostOutcome :=
  match postMessagesBody allocFails h with
  | .error _ => { logs := [], performAttempted := false, delivered := false }
  | .ok t => t

/-- The msgpack::pack call of the worker lambda (writer.cpp:110) with an
allocation oracle: packing into the stringstream allocates, and the
lambda body has no try/catch, so a bad_alloc here propagates. -/
def workerEncode {M : Type} (allocFails : Bool) (msgs : List M) :
    Except CxxException (MPValue M) :=
  if allocFails then .error .badAlloc else .ok (wrapMessages msgs)

/-- One full iteration of the worker loop body (writer.cpp:91-121) with
allocation oracles, as the C++ exception semantics sees it: the lambda
has no handler, so an exception from the encoding step escapes the
iteration (Except.error), while postMessages handles its own.  The
state effect on success mirrors workerWake followed by
workerFinishSend. -/
def workerIteration {M : Type} (encodeAllocFails postAllocFails : Bool)
    (h : PostResponses) (s : SysState M) :
    Except CxxException (SysState M × PostOutcome) :=
  if s.stopWriting then
    .ok ({ s with phase := .stopped },
         { logs := [], performAttempted := false, delivered := false })
  else if s.messages.length = 0 then
    .ok (s, { logs := [], performAttempted := false, delivered := false })
  else
    match workerEncode encodeAllocFails s.messages with
    | .error ex => .error ex
    | .ok payload =>
        let t := postMessages postAllocFails h
        .ok ({ s with messages := [],
                      sent := s.sent ++ [(payload, s.messages.length)],
                      flushWorker := false },
             t)

/-- Result codes for the two handle calls made by setUpHandle
(writer.cpp:40 and 45). -/
structure SetupResponses where
  setUrl : CURLcode
  appendVersionHeaders : CURLcode
deriving DecidableEq, Repr

/-- setUpHandle (writer.cpp:33-51): setting the agent URL or the static
connection headers returning non-ok throws std::runtime_error with the
given message; the constructor does not catch it, so it reaches the
caller. -/
def setUpHandle (r : SetupResponses) : Except String Unit :=
  match r.setUrl with
  | .err e => .error ("Unable to set agent URL: " ++ e)
  | .ok =>
      match r.appendVersionHeaders with
      | .err e => .error ("Unable to set agent connection headers: " ++ e)
      | .ok => .ok ()

/-- The constructor (writer.cpp:22-31): setUpHandle then startWriting;
on success the writer is in initState. -/
def construct (M : Type) (r : SetupResponses) (maxQueued : Nat) :
    Except String (SysState M) :=
  match setUpHandle r with
  | .error e => .error e
  | .ok _ => .ok (initState M maxQueued)

/-- write as seen by the caller (writer.cpp:72-81), with the allocation
oracle for the deque push_back at line 80: the early returns (stop flag
set, queue at capacity) allocate nothing and surface nothing; otherwise
push_back allocates, and write has no try/catch, so an allocation
failure there propagates to the caller as std::bad_alloc. -/
def writeCall {M : Type} (allocFails : Bool) (s : SysState M) (m : M) :
    Except CxxException (SysState M) :=
  if s.stopWriting then .ok s
  else if s.maxQueuedMessages ≤ s.messages.length then .ok s
  else if allocFails then .error .badAlloc
  else .ok { s with messages := s.messages ++ [m] }

/-- flush as seen by the caller: the whole body is wrapped in
try/catch (const std::bad_alloc) (writer.cpp:127-134), so even an
allocation failure inside returns normally. -/
def flushCall {M : Type} (allocFails : Bool) (s : SysState M) :
    Except String (SysState M) :=
  .ok (step s .flushRequest)

/-- stop as seen by the caller: the body (writer.cpp:59-69) contains no
throw; it flips the flag, notifies and joins. -/
def stopCall {M : Type} (s : SysState M) : Except String (SysState M) :=
  .ok (step s .stopRequest)

/-- No transition changes the configured bound. -/
theorem step_max_eq {M : Type} (s : SysState M) (a : Action M) :
    (step s a).maxQueuedMessages = s.maxQueuedMessages := by
  cases a with
  | write m =>
      by_cases hs : s.stopWriting
      · simp [step, hs]
      · by_cases hc : s.maxQueuedMessages ≤ s.messages.length
        · simp [step, hs, hc]
        · simp [step, hs, hc]
  | flushRequest => simp [step]
  | stopRequest => simp [step]
  | workerWake =>
      cases hp : s.phase with
      | idle =>
          by_cases hs : s.stopWriting
          · simp [step, hp, hs]
          · by_cases hq : s.messages.length = 0
            · simp [step, hp, hs, hq]
            · simp [step, hp, hs, hq]
      | sending p n => simp [step, hp]
      | stopped => simp [step, hp]
  | workerFinishSend =>
      cases hp : s.phase with
      | idle => simp [step, hp]
      | sending p n => simp [step, hp]
      | stopped => simp [step, hp]

/-- Every transition preserves the queue bound invariant. -/
theorem step_queue_bound {M : Type} (s : SysState M) (a : Action M)
    (h : s.messages.length ≤ s.maxQueuedMessages) :
    (step s a).messages.length ≤ (step s a).maxQueuedMessages := by
  cases a with
  | write m =>
      by_cases hs : s.stopWriting
      · simpa [step, hs] using h
      · by_cases hc : s.maxQueuedMessages ≤ s.messages.length
        · simpa [step, hs, hc] using h
        · simp [step, hs, hc]
          omega
  | flushRequest => simpa [step] using h
  | stopRequest => simpa [step] using h
  | workerWake =>
      cases hp : s.phase with
      | idle =>
          by_cases hs : s.stopWriting
          · simpa [step, hp, hs] using h
          · by_cases hq : s.messages.length = 0
            · simpa [step, hp, hs, hq] using h
            · simp [step, hp, hs, hq]
      | sending p n => simpa [step, hp] using h
      | stopped => simpa [step, hp] using h
  | workerFinishSend =>
      cases hp : s.phase with
      | idle => simpa [step, hp] using h
      | sending p n => simpa [step, hp] using h
      | stopped => simpa [step, hp] using h

/-- The queue bound invariant holds along every run. -/
theorem runActs_queue_bound {M : Type} (s : SysState M) (acts : List (Action M))
    (h : s.messages.length ≤ s.maxQueuedMessages) :
    (runActs s acts).messages.length ≤ (runActs s acts).maxQueuedMessages := by
  induction acts generalizing s with
  | nil => exact h
  | cons a as ih => exact ih (step s a) (step_queue_bound s a h)

/-- The configured bound is constant along every run. -/
theorem runActs_max_eq {M : Type} (s : SysState M) (acts : List (Action M)) :
    (runActs s acts).maxQueuedMessages = s.maxQueuedMessages := by
  induction acts generalizing s with
  | nil => rfl
  | cons a as ih => simpa [runActs, step_max_eq] using (ih (step s a)).trans (step_max_eq s a)

/-- C2: for every interleaving of transitions from a fresh writer, the
queue length never exceeds maxQueuedRecords; and a write arriving when
the queue already holds maxQueuedRecords records leaves the state
unchanged (the newest record is dropped), per writer.cpp:77-78. -/
theorem queue_never_exceeds_bound {M : Type} (maxQueued : Nat)
    (acts : List (Action M)) :
    (runActs (initState M maxQueued) acts).messages.length ≤ maxQueued ∧
    (∀ (s : SysState M) (m : M),
      s.messages.length = s.maxQueuedMessages → step s (.write m) = s) := by
  constructor
  · have h := runActs_queue_bound (initState M maxQueued) acts (by simp [initState])
    have hmax := runActs_max_eq (initState M maxQueued) acts
    rw [hmax] at h
    exact h
  · intro s m hfull
    by_cases hs : s.stopWriting
    · simp [step, hs]
    · simp [step, hs, hfull.ge]

/-- Closed witness for the queue bound claim. -/
theorem queue_never_exceeds_bound_witness :
    (runActs (initState Nat 2)
        [Action.write 10, .write 11, .write 12, .write 13]).messages.length ≤ 2 ∧
    step { initState Nat 2 with messages := [10, 11] } (Action.write 12)
      = { initState Nat 2 with messages := [10, 11] } :=
  ⟨(queue_never_exceeds_bound 2 [Action.write 10, .write 11, .write 12, .write 13]).1,
   (queue_never_exceeds_bound (M := Nat) 2 []).2
     { initState Nat 2 with messages := [10, 11] } 12 rfl⟩

/-- C7: the payload handed to the transport for a non-empty drained
batch is the record sequence wrapped in exactly one additional
single-element sequence (writer.cpp:109-110): an array containing one
array of records, whose outermost array has exactly one element. -/
theorem payload_double_wrapped {M : Type} (s : SysState M)
    (hp : s.phase = WorkerPhase.idle) (hs : s.stopWriting = false)
    (hne : s.messages ≠ []) :
    (step s .workerWake).phase
      = WorkerPhase.sending
          (MPValue.arr [MPValue.arr (s.messages.map MPValue.obj)])
          s.messages.length ∧
    (wrapMessages s.messages).outerLength = 1 := by
  have hq : ¬ s.messages.length = 0 := by
    simpa [List.length_eq_zero] using hne
  constructor
  · simp [step, hp, hs, hq, wrapMessages]
  · simp [wrapMessages, MPValue.outerLength]

/-- Closed witness for the payload wrapping claim. -/
theorem payload_double_wrapped_witness :
    (step { initState Nat 7000 with messages := [4, 5] } Action.workerWake).phase
      = WorkerPhase.sending
          (MPValue.arr [MPValue.arr [MPValue.obj 4, MPValue.obj 5]]) 2 ∧
    (wrapMessages [4, 5]).outerLength = 1 :=
  (payload_double_wrapped { initState Nat 7000 with messages := [4, 5] }
    rfl rfl (by simp))

/-- C8: a write after stop has been requested is a no-op: the state, in
particular the queue, is unchanged, nothing is raised and nothing
blocks (writer.cpp:74-76). -/
theorem write_after_stop_noop {M : Type} (s : SysState M) (m : M)
    (hs : s.stopWriting = true) :
    step s (.write m) = s ∧ ∀ af : Bool, writeCall af s m = .ok s := by
  exact ⟨by simp [step, hs], fun af => by simp [writeCall, hs]⟩

/-- Closed witness for the write-after-stop claim; the oracle is set to
failing to show the early return allocates nothing. -/
theorem write_after_stop_noop_witness :
    step { initState Nat 7000 with stopWriting := true } (Action.write 9)
        = { initState Nat 7000 with stopWriting := true } ∧
    writeCall true { initState Nat 7000 with stopWriting := true } 9
        = .ok { initState Nat 7000 with stopWriting := true } :=
  ⟨(write_after_stop_noop { initState Nat 7000 with stopWriting := true } 9 rfl).1,
   (write_after_stop_noop { initState Nat 7000 with stopWriting := true } 9 rfl).2 true⟩

/-- A run of writes below capacity on a non-stopped writer appends all
of them in order. -/
theorem runActs_writes {M : Type} (s : SysState M) (ws : List M)
    (hcap : s.messages.length + ws.length ≤ s.maxQueuedMessages)
    (hs : s.stopWriting = false) :
    runActs s (ws.map Action.write) = { s with messages := s.messages ++ ws } := by
  induction ws generalizing s with
  | nil => simp [runActs]
  | cons w ws ih =>
      have hlt : ¬ s.maxQueuedMessages ≤ s.messages.length := by
        simp at hcap
        omega
      have hstep : step s (Action.write w) = { s with messages := s.messages ++ [w] } := by
        simp [step, hs, hlt]
      have hrec := ih { s with messages := s.messages ++ [w] }
        (by simp at hcap ⊢; omega) (by simp [hs])
      calc runActs s ((w :: ws).map Action.write)
          = runActs (step s (Action.write w)) (ws.map Action.write) := rfl
        _ = { s with messages := s.messages ++ w :: ws } := by
            rw [hstep, hrec]
            simp

/-- C1: writes not exceeding maxQueuedRecords followed by flush: the
flush caller is released, and exactly the records written before the
call have been handed to the encoder/transport, in insertion order, as
exactly one batch (writer.cpp:101-120); the queue is left empty.  The
written sequence must be non-empty, otherwise the worker skips the
drain (writer.cpp:102-103) and flush does not return. -/
theorem flush_sends_single_ordered_batch {M : Type} (maxQueued : Nat)
    (ws : List M) (hlen : ws.length ≤ maxQueued) (hne : ws ≠ []) :
    flushReleased (runActs (initState M maxQueued)
        (ws.map Action.write
          ++ [Action.flushRequest, Action.workerWake, Action.workerFinishSend]))
      = true ∧
    (runActs (initState M maxQueued)
        (ws.map Action.write
          ++ [Action.flushRequest, Action.workerWake, Action.workerFinishSend])).sent
      = [(wrapMessages ws, ws.length)] ∧
    (runActs (initState M maxQueued)
        (ws.map Action.write
          ++ [Action.flushRequest, Action.workerWake, Action.workerFinishSend])).messages
      = [] := by
  have hwrites : runActs (initState M maxQueued) (ws.map Action.write)
      = { initState M maxQueued with messages := ws } := by
    have := runActs_writes (initState M maxQueued) ws
      (by simpa [initState] using hlen) (by simp [initState])
    simpa [initState] using this
  have hq : ¬ ws.length = 0 := by simpa [List.length_eq_zero] using hne
  have hrest : runActs { initState M maxQueued with messages := ws }
      [Action.flushRequest, Action.workerWake, Action.workerFinishSend]
      = { initState M maxQueued with
            messages := [], flushWorker := false, phase := .idle,
            sent := [(wrapMessages ws, ws.length)] } := by
    simp [runActs, step, initState, hq]
  rw [runActs, List.foldl_append, ← runActs, ← runActs, hwrites, hrest]
  simp [flushReleased, initState]

/-- Closed witness for the flush-single-batch claim. -/
theorem flush_sends_single_ordered_batch_witness :
    flushReleased (runActs (initState Nat 7000)
        ([3, 4].map Action.write
          ++ [Action.flushRequest, Action.workerWake, Action.workerFinishSend]))
      = true ∧
    (runActs (initState Nat 7000)
        ([3, 4].map Action.write
          ++ [Action.flushRequest, Action.workerWake, Action.workerFinishSend])).sent
      = [(wrapMessages [3, 4], 2)] ∧
    (runActs (initState Nat 7000)
        ([3, 4].map Action.write
          ++ [Action.flushRequest, Action.workerWake, Action.workerFinishSend])).messages
      = [] :=
  flush_sends_single_ordered_batch 7000 [3, 4] (by simp) (by simp)

/-- After stop is requested on an idle or stopped worker, no transition
sends anything, changes the queue, or resets the stop flag. -/
theorem step_after_stop {M : Type} (s : SysState M) (a : Action M)
    (hs : s.stopWriting = true)
    (hp : s.phase = WorkerPhase.idle ∨ s.phase = WorkerPhase.stopped) :
    (step s a).sent = s.sent ∧ (step s a).messages = s.messages ∧
    (step s a).stopWriting = true ∧
    ((step s a).phase = WorkerPhase.idle ∨ (step s a).phase = WorkerPhase.stopped) := by
  cases a with
  | write m => simp [step, hs, hp]
  | flushRequest => simp [step, hs, hp]
  | stopRequest => simp [step, hs, hp]
  | workerWake =>
      rcases hp with hp | hp
      · simp [step, hp, hs]
      · simp [step, hp, hs]
  | workerFinishSend =>
      rcases hp with hp | hp
      · simp [step, hp, hs, hp]
      · simp [step, hp, hs, hp]

/-- C5: stop requested while the worker is idle: along any continuation
nothing further is ever handed to the encoder/transport (the pending
queue is abandoned, not flushed), and on its next wakeup the worker
terminates (writer.cpp:98-99), so the join in stop (writer.cpp:68)
completes. -/
theorem stop_while_idle_discards_pending {M : Type} (s : SysState M)
    (acts : List (Action M))
    (hp : s.phase = WorkerPhase.idle) (hs : s.stopWriting = false) :
    (runActs (step s .stopRequest) acts).sent = s.sent ∧
    (runActs (step s .stopRequest) acts).messages = s.messages ∧
    (step (step s .stopRequest) .workerWake).phase = WorkerPhase.stopped := by
  have hstop : step s Action.stopRequest = { s with stopWriting := true } := by
    simp [step]
  have hinv : ∀ (t : SysState M) (as : List (Action M)), t.stopWriting = true →
      (t.phase = WorkerPhase.idle ∨ t.phase = WorkerPhase.stopped) →
      (runActs t as).sent = t.sent ∧ (runActs t as).messages = t.messages := by
    intro t as
    induction as generalizing t with
    | nil => intro _ _; exact ⟨rfl, rfl⟩
    | cons a as ih =>
        intro ht hpt
        obtain ⟨h1, h2, h3, h4⟩ := step_after_stop t a ht hpt
        obtain ⟨ih1, ih2⟩ := ih (step t a) h3 h4
        exact ⟨ih1.trans h1, ih2.trans h2⟩
    -- each continuation preserves sent and messages
  refine ⟨?_, ?_, ?_⟩
  · have := hinv (step s .stopRequest) acts (by simp [hstop]) (by simp [hstop, hp])
    simpa [hstop] using this.1
  · have := hinv (step s .stopRequest) acts (by simp [hstop]) (by simp [hstop, hp])
    simpa [hstop] using this.2
  · simp [hstop, step, hp]

/-- Closed witness for the stop-discards-pending claim. -/
theorem stop_while_idle_discards_pending_witness :
    (runActs (step { initState Nat 7000 with messages := [1, 2] } .stopRequest)
        [Action.workerWake, .workerFinishSend, .write 3]).sent = [] ∧
    (runActs (step { initState Nat 7000 with messages := [1, 2] } .stopRequest)
        [Action.workerWake, .workerFinishSend, .write 3]).messages = [1, 2] ∧
    (step (step { initState Nat 7000 with messages := [1, 2] } .stopRequest)
        .workerWake).phase = WorkerPhase.stopped :=
  stop_while_idle_discards_pending { initState Nat 7000 with messages := [1, 2] }
    [Action.workerWake, .workerFinishSend, .write 3] rfl rfl

/-- Counterexample to C3 as stated: a flush requested on an empty queue
(flush_worker_ set, queue empty, stop not requested) leaves the wait
predicate of the flush caller false, and any number of worker wakeups
and send completions leaves the state exactly where it was — the
worker hits the continue at writer.cpp:102-103 without clearing
flush_worker_ and without notifying, so the flush caller is not
released. -/
theorem flush_empty_queue_blocked_counterexample :
    flushReleased { initState Nat 7000 with flushWorker := true } = false ∧
    runActs { initState Nat 7000 with flushWorker := true }
        (List.replicate 20 Action.workerWake
          ++ List.replicate 20 Action.workerFinishSend)
      = { initState Nat 7000 with flushWorker := true } ∧
    flushReleased (runActs { initState Nat 7000 with flushWorker := true }
        (List.replicate 20 Action.workerWake
          ++ List.replicate 20 Action.workerFinishSend)) = false :=
  ⟨rfl, rfl, rfl⟩

/-- C3 amended: flush callers are released when a drain cycle completes
(workerFinishSend clears flush_worker_) or when stop is requested; but
a flush requested while the queue is empty is NOT released by the
worker alone: with no further write and no stop, every sequence of
worker transitions leaves the state fixed and the wait
predicate of the caller false, so that flush caller blocks indefinitely. -/
theorem flush_release_conditions {M : Type} (s : SysState M)
    (acts : List (Action M))
    (hq : s.messages = []) (hf : s.flushWorker = true)
    (hs : s.stopWriting = false) (hp : s.phase = WorkerPhase.idle)
    (hacts : ∀ a ∈ acts, a = Action.workerWake ∨ a = Action.workerFinishSend) :
    runActs s acts = s ∧ flushReleased s = false ∧
    (∀ (t : SysState M) (p : MPValue M) (n : Nat),
      t.phase = WorkerPhase.sending p n →
      flushReleased (step t .workerFinishSend) = true) ∧
    (∀ t : SysState M, flushReleased (step t .stopRequest) = true) := by
  have hwake : step s Action.workerWake = s := by
    simp [step, hp, hs, hq]
  have hfin : step s Action.workerFinishSend = s := by
    simp [step, hp]
  refine ⟨?_, ?_, ?_, ?_⟩
  · induction acts with
    | nil => rfl
    | cons a as ih =>
        have ha := hacts a (by simp)
        have hstep : step s a = s := by
          rcases ha with rfl | rfl
          · exact hwake
          · exact hfin
        have := ih (fun a ha => hacts a (by simp [ha]))
        calc runActs s (a :: as) = runActs (step s a) as := rfl
          _ = runActs s as := by rw [hstep]
          _ = s := this
  · simp [flushReleased, hf, hs]
  · intro t p n hpt
    simp [flushReleased, step, hpt]
  · intro t
    simp [flushReleased, step]

/-- Closed witness for the amended flush-release claim. -/
theorem flush_release_conditions_witness :
    runActs { initState Nat 7000 with flushWorker := true }
        [Action.workerWake, Action.workerFinishSend]
      = { initState Nat 7000 with flushWorker := true } ∧
    flushReleased { initState Nat 7000 with flushWorker := true } = false ∧
    (∀ (t : SysState Nat) (p : MPValue Nat) (n : Nat),
      t.phase = WorkerPhase.sending p n →
      flushReleased (step t .workerFinishSend) = true) ∧
    (∀ t : SysState Nat, flushReleased (step t .stopRequest) = true) :=
  flush_release_conditions { initState Nat 7000 with flushWorker := true }
    [Action.workerWake, Action.workerFinishSend] rfl rfl rfl rfl
    (by intro a ha; simp at ha; rcases ha with rfl | rfl
        · exact Or.inl rfl
        · exact Or.inr rfl)

/-- C10: completing a send cycle sets flush_worker_ to false and wakes
all waiters unconditionally (writer.cpp:117-120), whether the cycle was
triggered by flush or by the periodic timeout; concretely, a cycle
whose snapshot was taken on timeout before a producer wrote a record
and called flush still releases that flush caller, with the record of that producer still sitting undrained in the queue. -/
theorem finish_send_unconditionally_releases (M : Type) :
    (∀ (s : SysState M) (p : MPValue M) (n : Nat),
      s.phase = WorkerPhase.sending p n →
      (step s .workerFinishSend).flushWorker = false ∧
      flushReleased (step s .workerFinishSend) = true) ∧
    (flushReleased (runActs (initState Nat 7000)
        [Action.write 1, .workerWake, .write 2, .flushRequest, .workerFinishSend])
      = true ∧
     (runActs (initState Nat 7000)
        [Action.write 1, .workerWake, .write 2, .flushRequest, .workerFinishSend]).sent
      = [(wrapMessages [1], 1)] ∧
     (runActs (initState Nat 7000)
        [Action.write 1, .workerWake, .write 2, .flushRequest, .workerFinishSend]).messages
      = [2]) := by
  constructor
  · intro s p n hpt
    constructor
    · simp [step, hpt]
    · simp [flushReleased, step, hpt]
  · exact ⟨rfl, rfl, rfl⟩

/-- Closed witness for the unconditional flush-clear claim. -/
theorem finish_send_unconditionally_releases_witness :
    (step { initState Nat 7000 with phase := .sending (wrapMessages [8]) 1 }
        .workerFinishSend).flushWorker = false ∧
    flushReleased (step { initState Nat 7000 with
        phase := .sending (wrapMessages [8]) 1 } .workerFinishSend) = true :=
  (finish_send_unconditionally_releases Nat).1
    { initState Nat 7000 with phase := .sending (wrapMessages [8]) 1 }
    (wrapMessages [8]) 1 rfl

/-- Counterexample to C4 as stated: an allocation failure during the
encoding step (msgpack::pack at writer.cpp:110) is NOT caught — the
worker lambda body has no exception handler, so the bad_alloc escapes
the worker loop iteration instead of being converted into a dropped
batch. -/
theorem encode_alloc_escapes_counterexample :
    workerIteration true false
        { traceCountHeader := .ok, postFieldSize := .ok, postFields := .ok,
          performCall := .ok, lastError := "" }
        { initState Nat 7000 with messages := [5] }
      = .error CxxException.badAlloc := rfl

/-- C4 amended: an allocation failure inside postMessages (sending) is
caught at the boundary (writer.cpp:166-168) and converted into a
dropped batch, and one inside flush is caught too (writer.cpp:133), so
neither propagates; but an allocation failure during the encoding step
of the worker loop propagates out of the iteration, because the lambda
body has no handler. -/
theorem alloc_failure_containment {M : Type} (h : PostResponses)
    (s : SysState M) (af : Bool)
    (hs : s.stopWriting = false) (hne : s.messages ≠ []) :
    postMessagesBody true h = .error CxxException.badAlloc ∧
    postMessages true h
      = { logs := [], performAttempted := false, delivered := false } ∧
    flushCall af s = .ok (step s .flushRequest) ∧
    workerIteration true af h s = .error CxxException.badAlloc := by
  have hq : ¬ s.messages.length = 0 := by
    simpa [List.length_eq_zero] using hne
  refine ⟨rfl, rfl, rfl, ?_⟩
  simp [workerIteration, hs, hq, workerEncode]

/-- Closed witness for the allocation-containment claim. -/
theorem alloc_failure_containment_witness :
    postMessagesBody true
        { traceCountHeader := .ok, postFieldSize := .ok, postFields := .ok,
          performCall := .ok, lastError := "" }
      = .error CxxException.badAlloc ∧
    postMessages true
        { traceCountHeader := .ok, postFieldSize := .ok, postFields := .ok,
          performCall := .ok, lastError := "" }
      = { logs := [], performAttempted := false, delivered := false } ∧
    flushCall true { initState Nat 7000 with messages := [6] }
      = .ok (step { initState Nat 7000 with messages := [6] } .flushRequest) ∧
    workerIteration true true
        { traceCountHeader := .ok, postFieldSize := .ok, postFields := .ok,
          performCall := .ok, lastError := "" }
        { initState Nat 7000 with messages := [6] }
      = .error CxxException.badAlloc :=
  alloc_failure_containment
    { traceCountHeader := .ok, postFieldSize := .ok, postFields := .ok,
      performCall := .ok, lastError := "" }
    { initState Nat 7000 with messages := [6] } true rfl (by simp)

/-- C6: a header-setting, size-setting, body-setting or
transport-perform failure in one cycle (writer.cpp:139-165)
produces exactly one log line, skips the rest of that cycle (dropping
the batch already removed from the queue, with no retry and no
re-queueing), and does not prevent a later cycle from draining and
handing over later-enqueued records — the state effect of a worker
iteration does not depend on the results of the handle at all. -/
theorem send_failure_isolated_per_cycle {M : Type} (h h2 : PostResponses)
    (pf1 pf2 : Bool) (a b : M) (e : String) :
    (h.traceCountHeader = CURLcode.err e →
      postMessages false h
        = { logs := ["Error setting agent communication headers: " ++ e],
            performAttempted := false, delivered := false }) ∧
    (h.traceCountHeader = .ok → h.postFieldSize = CURLcode.err e →
      postMessages false h
        = { logs := ["Error setting agent request size: " ++ e],
            performAttempted := false, delivered := false }) ∧
    (h.traceCountHeader = .ok → h.postFieldSize = .ok →
      h.postFields = CURLcode.err e →
      postMessages false h
        = { logs := ["Error setting agent request body: " ++ e],
            performAttempted := false, delivered := false }) ∧
    (h.traceCountHeader = .ok → h.postFieldSize = .ok → h.postFields = .ok →
      h.performCall = CURLcode.err e →
      postMessages false h
        = { logs := ["Error sending traces to agent: " ++ e
                       ++ "\n" ++ h.lastError],
            performAttempted := true, delivered := false }) ∧
    (∃ s1 t1, workerIteration false pf1 h
        { initState M 7000 with messages := [a] } = .ok (s1, t1) ∧
      s1.messages = [] ∧ s1.sent = [(wrapMessages [a], 1)] ∧
      ∃ s3 t2, workerIteration false pf2 h2 (step s1 (.write b)) = .ok (s3, t2) ∧
        s3.sent = [(wrapMessages [a], 1), (wrapMessages [b], 1)] ∧
        s3.messages = []) := by
  refine ⟨?_, ?_, ?_, ?_, ?_⟩
  · intro h1
    simp [postMessages, postMessagesBody, h1]
  · intro h1 hb
    simp [postMessages, postMessagesBody, h1, hb]
  · intro h1 hb h3
    simp [postMessages, postMessagesBody, h1, hb, h3]
  · intro h1 hb h3 h4
    simp [postMessages, postMessagesBody, h1, hb, h3, h4]
  · exact ⟨_, _, rfl, rfl, rfl, _, _, rfl, rfl, rfl⟩

/-- Closed witness for the per-cycle failure isolation claim. -/
theorem send_failure_isolated_per_cycle_witness :
    postMessages false
        { traceCountHeader := .ok, postFieldSize := .ok, postFields := .ok,
          performCall := CURLcode.err "connect refused", lastError := "details" }
      = { logs := ["Error sending traces to agent: " ++ "connect refused"
                     ++ "\n" ++ "details"],
          performAttempted := true, delivered := false } ∧
    postMessages false
        { traceCountHeader := .ok, postFieldSize := .ok,
          postFields := CURLcode.err "connect refused", performCall := .ok,
          lastError := "details" }
      = { logs := ["Error setting agent request body: " ++ "connect refused"],
          performAttempted := false, delivered := false } ∧
    postMessages false
        { traceCountHeader := .ok, postFieldSize := CURLcode.err "connect refused",
          postFields := .ok, performCall := .ok, lastError := "details" }
      = { logs := ["Error setting agent request size: " ++ "connect refused"],
          performAttempted := false, delivered := false } ∧
    (∃ s1 t1, workerIteration false false
        { traceCountHeader := .ok, postFieldSize := .ok, postFields := .ok,
          performCall := CURLcode.err "connect refused", lastError := "details" }
        { initState Nat 7000 with messages := [1] } = .ok (s1, t1) ∧
      s1.messages = [] ∧ s1.sent = [(wrapMessages [1], 1)] ∧
      ∃ s3 t2, workerIteration false false
          { traceCountHeader := .ok, postFieldSize := .ok, postFields := .ok,
            performCall := .ok, lastError := "" }
          (step s1 (.write 2)) = .ok (s3, t2) ∧
        s3.sent = [(wrapMessages [1], 1), (wrapMessages [2], 1)] ∧
        s3.messages = []) :=
  ⟨(send_failure_isolated_per_cycle
      { traceCountHeader := .ok, postFieldSize := .ok, postFields := .ok,
        performCall := CURLcode.err "connect refused", lastError := "details" }
      { traceCountHeader := .ok, postFieldSize := .ok, postFields := .ok,
        performCall := .ok, lastError := "" }
      false false (1 : Nat) 2 "connect refused").2.2.2.1 rfl rfl rfl rfl,
   (send_failure_isolated_per_cycle
      { traceCountHeader := .ok, postFieldSize := .ok,
        postFields := CURLcode.err "connect refused", performCall := .ok,
        lastError := "details" }
      { traceCountHeader := .ok, postFieldSize := .ok, postFields := .ok,
        performCall := .ok, lastError := "" }
      false false (1 : Nat) 2 "connect refused").2.2.1 rfl rfl rfl,
   (send_failure_isolated_per_cycle
      { traceCountHeader := .ok, postFieldSize := CURLcode.err "connect refused",
        postFields := .ok, performCall := .ok, lastError := "details" }
      { traceCountHeader := .ok, postFieldSize := .ok, postFields := .ok,
        performCall := .ok, lastError := "" }
      false false (1 : Nat) 2 "connect refused").2.1 rfl rfl,
   (send_failure_isolated_per_cycle
      { traceCountHeader := .ok, postFieldSize := .ok, postFields := .ok,
        performCall := CURLcode.err "connect refused", lastError := "details" }
      { traceCountHeader := .ok, postFieldSize := .ok, postFields := .ok,
        performCall := .ok, lastError := "" }
      false false (1 : Nat) 2 "connect refused").2.2.2.2⟩

/-- Counterexample to C9 as stated: write at writer.cpp:80 calls
push_back with no handler anywhere in write, so an allocation failure
while growing the queue propagates to the calling application as
std::bad_alloc — a steady-state write can surface an error to the
caller. -/
theorem write_alloc_error_counterexample :
    writeCall true (initState Nat 7000) 3 = .error CxxException.badAlloc := rfl

/-- C9 amended: an error is raised at construction exactly when setting
the agent URL or the static connection headers returns non-ok
(writer.cpp:40-50), with the runtime_error messages of the source;
flush and stop never surface an error (flush catches bad_alloc,
writer.cpp:133; stop contains no throw), and write surfaces no error on
its early-return paths or when allocation succeeds — but an allocation
failure in its push_back (writer.cpp:80), which write does not catch,
propagates to the caller. -/
theorem errors_only_at_construction (M : Type) (r : SetupResponses)
    (maxQueued : Nat) :
    ((∃ e, construct M r maxQueued = .error e) ↔
      (r.setUrl ≠ CURLcode.ok ∨ r.appendVersionHeaders ≠ CURLcode.ok)) ∧
    (∀ e, r.setUrl = CURLcode.err e →
      setUpHandle r = .error ("Unable to set agent URL: " ++ e)) ∧
    (∀ e, r.setUrl = CURLcode.ok → r.appendVersionHeaders = CURLcode.err e →
      setUpHandle r = .error ("Unable to set agent connection headers: " ++ e)) ∧
    (∀ (s : SysState M) (m : M), writeCall false s m = .ok (step s (.write m))) ∧
    (∀ (af : Bool) (s : SysState M) (m : M), s.stopWriting = true →
      writeCall af s m = .ok s) ∧
    (∀ (af : Bool) (s : SysState M) (m : M),
      s.maxQueuedMessages ≤ s.messages.length → writeCall af s m = .ok s) ∧
    (∀ (s : SysState M) (m : M), s.stopWriting = false →
      ¬ s.maxQueuedMessages ≤ s.messages.length →
      writeCall true s m = .error CxxException.badAlloc) ∧
    (∀ (af : Bool) (s : SysState M), flushCall af s = .ok (step s .flushRequest)) ∧
    (∀ s : SysState M, stopCall s = .ok (step s .stopRequest)) := by
  obtain ⟨u, v⟩ := r
  refine ⟨?_, ?_, ?_, ?_, ?_, ?_, ?_, fun af s => rfl, fun s => rfl⟩
  · cases u with
    | ok =>
        cases v with
        | ok => simp [construct, setUpHandle]
        | err e => simp [construct, setUpHandle]
    | err e =>
        cases v <;> simp [construct, setUpHandle]
  · intro e he
    cases he
    rfl
  · intro e hu hv
    cases hu
    cases hv
    rfl
  · intro s m
    by_cases hs : s.stopWriting
    · simp [writeCall, step, hs]
    · by_cases hc : s.maxQueuedMessages ≤ s.messages.length
      · simp [writeCall, step, hs, hc]
      · simp [writeCall, step, hs, hc]
  · intro af s m hs
    simp [writeCall, hs]
  · intro af s m hc
    by_cases hs : s.stopWriting
    · simp [writeCall, hs]
    · simp [writeCall, hs, hc]
  · intro s m hs hc
    simp [writeCall, hs, hc]

/-- Closed witness for the amended construction-error claim. -/
theorem errors_only_at_construction_witness :
    setUpHandle { setUrl := CURLcode.err "bad url", appendVersionHeaders := .ok }
      = .error ("Unable to set agent URL: " ++ "bad url") ∧
    (∃ e, construct Nat
        { setUrl := CURLcode.err "bad url", appendVersionHeaders := .ok } 7000
      = .error e) ∧
    writeCall false (initState Nat 7000) 3
      = .ok (step (initState Nat 7000) (.write 3)) ∧
    writeCall true { initState Nat 7000 with stopWriting := true } 3
      = .ok { initState Nat 7000 with stopWriting := true } ∧
    writeCall true (initState Nat 7000) 3 = .error CxxException.badAlloc :=
  ⟨(errors_only_at_construction Nat
      { setUrl := CURLcode.err "bad url", appendVersionHeaders := .ok } 7000).2.1
      "bad url" rfl,
   (errors_only_at_construction Nat
      { setUrl := CURLcode.err "bad url", appendVersionHeaders := .ok } 7000).1.mpr
      (Or.inl (by simp)),
   (errors_only_at_construction Nat
      { setUrl := CURLcode.err "bad url", appendVersionHeaders := .ok } 7000).2.2.2.1
      (initState Nat 7000) 3,
   (errors_only_at_construction Nat
      { setUrl := CURLcode.err "bad url", appendVersionHeaders := .ok } 7000).2.2.2.2.1
      true { initState Nat 7000 with stopWriting := true } 3 rfl,
   (errors_only_at_construction Nat
      { setUrl := CURLcode.err "bad url", appendVersionHeaders := .ok } 7000).2.2.2.2.2.2.1
      (initState Nat 7000) 3 rfl (by simp [initState])⟩

end AgentWriter
